import Mathlib

/-!
Shallow embedding of the Steerify launch-waitlist backend route handlers
(`backend/src/routes/waitlist.ts`) and the collaborators they call.

The route file is the only source present; the Subscriber Store
(`../lib/storage`) and the email provider are collaborators.  The
operations of the Store are modelled from the spec (add-if-absent, delete-by-key,
list-all, count, keyed by email).  Each collaborator call can fault; faults
are supplied by oracles in the environment so that the catch blocks of
the handlers can be examined.
-/

set_option autoImplicit false

namespace Waitlist

/-- A persisted waitlist entrant (`models/subscriber`): name, email, role
(`customer` or `provider`) and an ISO timestamp. -/
structure Subscriber where
  name : String
  email : String
  role : String
  joinedAt : String
deriving Repr, DecidableEq

/-- The canonical Subscriber collection held by the Store. -/
abbrev Store := List Subscriber

/-- Outcome of one `resend.emails.send` call: the promise can resolve with
no error, resolve with an error object (`{ data, error }`), or reject. -/
inductive SendOutcome where
  | ok
  | err (msg : String)
  | thrown (msg : String)
deriving Repr, DecidableEq

/-- Environment a request runs in: presence of `RESEND_API_KEY`, the email
grammar used by the zod schema (the zod library is an external dependency,
so its `.email()` check is kept abstract), the per-recipient outcome of the
email provider, the current timestamp, and fault oracles for each Store
operation (when `some msg`, that Store call throws). -/
structure Env where
  hasApiKey : Bool
  emailOk : String → Bool
  send : String → SendOutcome
  now : String
  addFault : Option String
  countFault : Option String
  listFault : Option String
  deleteFault : Option String

/-- An HTTP JSON response: status code plus the fields the handlers emit. -/
structure Resp where
  status : Nat
  success : Option Bool
  message : Option String
  count : Option Nat
  subscribers : Option (List Subscriber)
deriving Repr, DecidableEq

/-- `res.status(st).json({ success: false, message })`. -/
def errResp (st : Nat) (m : String) : Resp :=
  ⟨st, some false, some m, none, none⟩

/-- Modelled from the spec: the Subscriber Store collaborator
(`../lib/storage`, not present under `src/`) exposes add-if-absent keyed by
email; `addSubscriber` returns whether the record was inserted. -/
def addSubscriber (store : Store) (sub : Subscriber) : Store × Bool :=
  if store.any (fun s => s.email == sub.email) then (store, false)
  else (store ++ [sub], true)

/-- Modelled from the spec: the delete-by-key of the Store; removes the record
for the email and reports whether one existed. -/
def deleteSubscriber (store : Store) (e : String) : Store × Bool :=
  if store.any (fun s => s.email == e) then
    (store.filter (fun s => s.email != e), true)
  else (store, false)

/-- JavaScript truthiness of a possibly-absent string field of `req.body`:
`undefined` and the empty string are falsy. -/
def truthy : Option String → Bool
  | none => false
  | some s => !(s == "")

/-- The zod enum check `z.enum` over customer and provider. -/
def validRole (r : String) : Bool :=
  r == "customer" || r == "provider"

/-- Modelled from the zod library: the message of an invalid-enum-value
issue for the role field (exact punctuation abbreviated). -/
def invalidRoleMessage (r : String) : String :=
  "Invalid enum value. Expected customer | provider, received " ++ r

/-- `schema.safeParse` over the schema of lines 17-23: issues arise in
field-declaration order (name, then email, then role) and the handler
reports `result.error.errors[0].message`, the message of the first issue. -/
def joinValidate (env : Env) (n e r : String) : Option String :=
  if n.length < 1 then some "Name is required"
  else if !(env.emailOk e) then some "Invalid email address"
  else if !(validRole r) then some (invalidRoleMessage r)
  else none

/-- The message the join handler rejects a validation failure with: the
missing/empty-field guard fires first with its own message, otherwise the
message of the first zod issue is used. -/
def joinRejectionMessage (env : Env) (n e r : String) : String :=
  if n == "" || e == "" || r == "" then "All fields are required"
  else (joinValidate env n e r).getD ""

/-- Whether a `(name, email, role)` triple gets past both the truthiness
guard and the zod schema of the join handler. -/
def joinAccepts (env : Env) (n e r : String) : Bool :=
  truthy (some n) && truthy (some e) && truthy (some r)
    && (joinValidate env n e r).isNone

/-- What a join request produced: the response, the resulting Store, and
the recipients a welcome email was dispatched to. -/
structure JoinOut where
  resp : Resp
  store : Store
  sent : List String
deriving Repr, DecidableEq

/-- `POST /join` (lines 26-115): truthiness guard, zod validation,
conditional insert, welcome email (only when the API key is present; a
resolved error or a thrown error each yield 500), then the count and the
success response.  Store faults are caught by the outer catch. -/
def joinHandler (env : Env) (store : Store)
    (name? email? role? : Option String) : JoinOut :=
  if !(truthy name?) || !(truthy email?) || !(truthy role?) then
    ⟨errResp 400 "All fields are required", store, []⟩
  else
    let n := name?.getD ""
    let e := email?.getD ""
    let r := role?.getD ""
    match joinValidate env n e r with
    | some m => ⟨errResp 400 m, store, []⟩
    | none =>
      match env.addFault with
      | some _ =>
        ⟨errResp 500 "An unexpected error occurred. Please try again.",
          store, []⟩
      | none =>
        let res := addSubscriber store ⟨n, e, r, env.now⟩
        if !res.2 then
          ⟨errResp 409 "This email is already on the waitlist", res.1, []⟩
        else if env.hasApiKey then
          match env.send e with
          | .err m => ⟨errResp 500 ("Email failed: " ++ m), res.1, [e]⟩
          | .thrown m =>
            ⟨errResp 500 ("Email service error: " ++ m), res.1, [e]⟩
          | .ok =>
            match env.countFault with
            | some _ =>
              ⟨errResp 500 "An unexpected error occurred. Please try again.",
                res.1, [e]⟩
            | none =>
              ⟨⟨200, some true,
                some "You have been added to the waitlist! Check your email for confirmation.",
                some res.1.length, none⟩, res.1, [e]⟩
        else ⟨errResp 500 "Email service not configured", res.1, []⟩

/-- `GET /count` (lines 118-126): returns the count held by the Store; a fault in
`getSubscriberCount` is caught and answered with `{ count: 0 }`. -/
def countHandler (env : Env) (store : Store) : Resp :=
  match env.countFault with
  | some _ => ⟨200, none, none, some 0, none⟩
  | none => ⟨200, none, none, some store.length, none⟩

/-- `GET /subscribers` (lines 129-143): returns all subscribers; a fault is
caught and answered with 500 and an empty list. -/
def listHandler (env : Env) (store : Store) : Resp :=
  match env.listFault with
  | some _ =>
    ⟨500, some false, some "Error fetching subscribers", none, some []⟩
  | none => ⟨200, none, none, none, some store⟩

/-- `DELETE /subscriber/:email` (lines 146-177): empty email is 400, a
missing record is 404, otherwise the record is removed; Store faults hit
the outer catch. -/
def deleteHandler (env : Env) (store : Store) (email : String) :
    Resp × Store :=
  if email == "" then (errResp 400 "Email is required", store)
  else
    match env.deleteFault with
    | some _ =>
      (errResp 500 "An unexpected error occurred while deleting subscriber.",
        store)
    | none =>
      let res := deleteSubscriber store email
      if !res.2 then (errResp 404 "Subscriber not found", res.1)
      else
        (⟨200, some true, some "Subscriber deleted successfully", none,
          none⟩, res.1)

/-- A single quote character, for the inline style attribute. -/
def quoteChar : String := String.singleton (Char.ofNat 39)

/-- The opening of the HTML wrapper put around a bulk-email body
(line 207). -/
def htmlDivOpen : String :=
  "<div style=" ++ quoteChar ++ "font-family:sans-serif;line-height:1.5;"
    ++ quoteChar ++ ">"

/-- The closing of the HTML wrapper. -/
def htmlDivClose : String := "</div>"

/-- The JavaScript global regex replace of newlines in `body` by `<br/>`:
every newline character becomes `<br/>`; every other character is kept
unchanged. -/
def replaceNewlines (s : String) : String :=
  ⟨(s.data.map (fun c => if c = Char.ofNat 10 then "<br/>".data else [c])).flatten⟩

/-- The HTML content sent to each bulk-email recipient (line 207): the body
with every newline replaced by `<br/>`, wrapped in the styled div. -/
def bulkHtml (body : String) : String :=
  htmlDivOpen ++ replaceNewlines body ++ htmlDivClose

/-- Truthiness of the `emails` field: absent or empty fails the guard. -/
def emailsProvided : Option (List String) → Bool
  | none => false
  | some l => !l.isEmpty

/-- What a bulk-email request produced: the response and the dispatches
that were attempted, each with the HTML content it carried. -/
structure BulkOut where
  resp : Resp
  attempted : List (String × String)
deriving Repr, DecidableEq

/-- Whether an outcome is a rejected promise. -/
def SendOutcome.isThrown : SendOutcome → Bool
  | .thrown _ => true
  | _ => false

/-- Whether an outcome resolved carrying an error object. -/
def SendOutcome.isErr : SendOutcome → Bool
  | .err _ => true
  | _ => false

/-- `POST /bulk-email` (lines 180-232): the API-key guard runs before the
field guard; all sends are issued by `Promise.all`, so every recipient is
attempted; a rejected send rejects the whole `Promise.all` and lands in the
catch (generic 500), otherwise recipients whose send resolved with an error
are collected and named in a 500, and only a fully clean batch yields the
success response. -/
def bulkHandler (env : Env) (subject? body? : Option String)
    (emails? : Option (List String)) : BulkOut :=
  if !env.hasApiKey then
    ⟨errResp 500 "Resend API key not configured.", []⟩
  else if !(truthy subject?) || !(truthy body?)
      || !(emailsProvided emails?) then
    ⟨errResp 400 "Subject, body, and at least one recipient are required.",
      []⟩
  else
    let body := body?.getD ""
    let emails := emails?.getD []
    let attempted := emails.map (fun e => (e, bulkHtml body))
    let results := emails.map (fun e => (e, env.send e))
    if results.any (fun p => p.2.isThrown) then
      ⟨errResp 500 "An error occurred while sending emails.", attempted⟩
    else
      let failed := (results.filter (fun p => p.2.isErr)).map (fun p => p.1)
      if !failed.isEmpty then
        ⟨errResp 500 ("Failed to send to: " ++ String.intercalate ", " failed),
          attempted⟩
      else
        ⟨⟨200, some true,
          some ("Sent to " ++ toString emails.length ++ " subscriber(s)."),
          none, none⟩, attempted⟩

/-- Number of Store records for a given email key. -/
def countEmail (store : Store) (e : String) : Nat :=
  (store.filter (fun s => s.email == e)).length

/-- A concrete environment for witnesses: key present, two addresses pass
the email grammar, every send succeeds, no Store faults. -/
def envW : Env :=
  ⟨true, fun s => s == "a@b.co" || s == "c@d.co", fun _ => .ok,
    "2026-01-01T00:00:00.000Z", none, none, none, none⟩

/-- The witness environment with the API key absent. -/
def envNoKey : Env :=
  ⟨false, fun s => s == "a@b.co" || s == "c@d.co", fun _ => .ok,
    "2026-01-01T00:00:00.000Z", none, none, none, none⟩

/-- A concrete one-subscriber Store for witnesses. -/
def storeW : Store := [⟨"Ada", "a@b.co", "customer", "t0"⟩]

theorem joinAccepts_iff {env : Env} {n e r : String} :
    joinAccepts env n e r = true ↔
      (n ≠ "" ∧ e ≠ "" ∧ r ≠ "" ∧ joinValidate env n e r = none) := by
  simp [joinAccepts, truthy, Bool.and_eq_true, Option.isNone_iff_eq_none,
    and_assoc]

/-- C1: a join request for an email that already has a Subscriber record
fails with a 409 conflict, dispatches no welcome email, and leaves the
Store unchanged, so the number of records for that email is unchanged —
at most one admission side-effect per email address. -/
theorem join_duplicate_conflict (env : Env) (store : Store) (n e r : String)
    (hv : joinAccepts env n e r = true) (hf : env.addFault = none)
    (hdup : store.any (fun s => s.email == e) = true) :
    (joinHandler env store (some n) (some e) (some r)).resp.status = 409 ∧
    (joinHandler env store (some n) (some e) (some r)).store = store ∧
    (joinHandler env store (some n) (some e) (some r)).sent = [] ∧
    countEmail (joinHandler env store (some n) (some e) (some r)).store e
      = countEmail store e := by
  obtain ⟨hn, he, hr, hval⟩ := joinAccepts_iff.mp hv
  simp [joinHandler, truthy, hn, he, hr, hval, hf, addSubscriber, hdup,
    errResp]

/-- Witness for C1: a second join for the already-stored address. -/
theorem join_duplicate_conflict_witness :
    (joinHandler envW storeW (some "Bea") (some "a@b.co")
      (some "provider")).resp.status = 409 ∧
    (joinHandler envW storeW (some "Bea") (some "a@b.co")
      (some "provider")).store = storeW ∧
    (joinHandler envW storeW (some "Bea") (some "a@b.co")
      (some "provider")).sent = [] ∧
    countEmail (joinHandler envW storeW (some "Bea") (some "a@b.co")
      (some "provider")).store "a@b.co" = countEmail storeW "a@b.co" :=
  join_duplicate_conflict envW storeW "Bea" "a@b.co" "provider" (by decide)
    rfl (by decide)

/-- C3: on a valid, non-duplicate join, when the email integration is
unconfigured or the welcome send fails (resolved error or rejection), the
handler reports the admission as failed with 500 while the freshly inserted
Subscriber record remains persisted — no compensating rollback. -/
theorem join_email_failure_persists (env : Env) (store : Store)
    (n e r : String) (hv : joinAccepts env n e r = true)
    (hf : env.addFault = none)
    (hnew : store.any (fun s => s.email == e) = false)
    (hfail : env.hasApiKey = false ∨ (env.send e).isErr = true
      ∨ (env.send e).isThrown = true) :
    (joinHandler env store (some n) (some e) (some r)).resp.status = 500 ∧
    (joinHandler env store (some n) (some e) (some r)).resp.success
      = some false ∧
    (joinHandler env store (some n) (some e) (some r)).store
      = store ++ [⟨n, e, r, env.now⟩] := by
  obtain ⟨hn, he, hr, hval⟩ := joinAccepts_iff.mp hv
  cases hk : env.hasApiKey with
  | false =>
    simp [joinHandler, truthy, hn, he, hr, hval, hf, addSubscriber, hnew,
      hk, errResp]
  | true =>
    rcases hfail with h | herr | hthr
    · exact absurd h (by simp [hk])
    · cases hsend : env.send e with
      | ok => simp [SendOutcome.isErr, hsend] at herr
      | err m =>
        simp [joinHandler, truthy, hn, he, hr, hval, hf, addSubscriber,
          hnew, hk, hsend, errResp]
      | thrown m => simp [SendOutcome.isErr, hsend] at herr
    · cases hsend : env.send e with
      | ok => simp [SendOutcome.isThrown, hsend] at hthr
      | err m => simp [SendOutcome.isThrown, hsend] at hthr
      | thrown m =>
        simp [joinHandler, truthy, hn, he, hr, hval, hf, addSubscriber,
          hnew, hk, hsend, errResp]

/-- Witness for C3: a fresh join with the API key absent. -/
theorem join_email_failure_persists_witness :
    (joinHandler envNoKey [] (some "Ada") (some "a@b.co")
      (some "customer")).resp.status = 500 ∧
    (joinHandler envNoKey [] (some "Ada") (some "a@b.co")
      (some "customer")).resp.success = some false ∧
    (joinHandler envNoKey [] (some "Ada") (some "a@b.co")
      (some "customer")).store
      = [] ++ [⟨"Ada", "a@b.co", "customer", envNoKey.now⟩] :=
  join_email_failure_persists envNoKey [] "Ada" "a@b.co" "customer"
    (by decide) rfl rfl (Or.inl rfl)

/-- C5: the count operation always answers 200: when the underlying count
query faults it degrades to `{ count: 0 }`, otherwise it returns the
subscriber count of the Store; no error is ever propagated. -/
theorem count_silent_degradation (env : Env) (store : Store) :
    (countHandler env store).status = 200 ∧
    (countHandler env store).count
      = some (env.countFault.elim store.length (fun _ => 0)) := by
  cases h : env.countFault <;> simp [countHandler, h]

/-- C7: with the email integration unconfigured, bulk send fails
immediately with 500 and attempts no dispatch to any recipient. -/
theorem bulk_unconfigured_no_attempt (env : Env)
    (subject? body? : Option String) (emails? : Option (List String))
    (hk : env.hasApiKey = false) :
    bulkHandler env subject? body? emails?
      = ⟨errResp 500 "Resend API key not configured.", []⟩ := by
  simp [bulkHandler, hk]

/-- Witness for C7: a fully populated request against the key-less
environment. -/
theorem bulk_unconfigured_no_attempt_witness :
    bulkHandler envNoKey (some "hello") (some "world") (some ["a@b.co"])
      = ⟨errResp 500 "Resend API key not configured.", []⟩ :=
  bulk_unconfigured_no_attempt envNoKey (some "hello") (some "world")
    (some ["a@b.co"]) rfl

/-- C10: the API-key guard runs before input validation: while the key is
absent, even a request missing subject, body, or recipients gets the 500
not-configured outcome, never the 400 validation response. -/
theorem bulk_config_check_first (env : Env)
    (subject? body? : Option String) (emails? : Option (List String))
    (hk : env.hasApiKey = false)
    (hbad : (!(truthy subject?) || !(truthy body?)
      || !(emailsProvided emails?)) = true) :
    (bulkHandler env subject? body? emails?).resp.status = 500 ∧
    (bulkHandler env subject? body? emails?).resp.message
      = some "Resend API key not configured." ∧
    (bulkHandler env subject? body? emails?).resp.status ≠ 400 := by
  simp [bulkHandler, hk, errResp]

/-- Witness for C10: no key and every field missing still yields the
not-configured 500. -/
theorem bulk_config_check_first_witness :
    (bulkHandler envNoKey none none none).resp.status = 500 ∧
    (bulkHandler envNoKey none none none).resp.message
      = some "Resend API key not configured." ∧
    (bulkHandler envNoKey none none none).resp.status ≠ 400 :=
  bulk_config_check_first envNoKey none none none rfl (by decide)

theorem length_not_lt_one {s : String} (h : s ≠ "") : ¬ s.length < 1 :=
  fun hl => h (String.ext (List.length_eq_zero.mp (Nat.lt_one_iff.mp hl)))

/-- C2: a join request with an empty name, a malformed email, or a role
outside the enum is rejected with 400 carrying the message of the first
violated constraint, with no Store write and no email dispatch. -/
theorem join_validation_rejected (env : Env) (store : Store) (n e r : String)
    (hbad : n = "" ∨ env.emailOk e = false ∨ validRole r = false) :
    (joinHandler env store (some n) (some e) (some r)).resp.status = 400 ∧
    (joinHandler env store (some n) (some e) (some r)).resp.message
      = some (joinRejectionMessage env n e r) ∧
    (joinHandler env store (some n) (some e) (some r)).store = store ∧
    (joinHandler env store (some n) (some e) (some r)).sent = [] := by
  by_cases hn : n = ""
  · simp [joinHandler, truthy, joinRejectionMessage, hn, errResp]
  · by_cases he : e = ""
    · simp [joinHandler, truthy, joinRejectionMessage, hn, he, errResp]
    · by_cases hr : r = ""
      · simp [joinHandler, truthy, joinRejectionMessage, hn, he, hr, errResp]
      · have hval : ∃ m, joinValidate env n e r = some m := by
          rcases hbad with h | h | h
          · exact absurd h hn
          · exact ⟨"Invalid email address",
              by simp [joinValidate, length_not_lt_one hn, h]⟩
          · by_cases hem : env.emailOk e = true
            · exact ⟨invalidRoleMessage r,
                by simp [joinValidate, length_not_lt_one hn, hem, h]⟩
            · exact ⟨"Invalid email address",
                by simp [joinValidate, length_not_lt_one hn,
                  Bool.eq_false_iff.mpr hem]⟩
        obtain ⟨m, hval⟩ := hval
        simp [joinHandler, truthy, joinRejectionMessage, hn, he, hr, hval,
          errResp]

/-- Witness for C2: a join with a role outside the enum. -/
theorem join_validation_rejected_witness :
    (joinHandler envW [] (some "Ada") (some "a@b.co")
      (some "admin")).resp.status = 400 ∧
    (joinHandler envW [] (some "Ada") (some "a@b.co")
      (some "admin")).resp.message
      = some (joinRejectionMessage envW "Ada" "a@b.co" "admin") ∧
    (joinHandler envW [] (some "Ada") (some "a@b.co")
      (some "admin")).store = [] ∧
    (joinHandler envW [] (some "Ada") (some "a@b.co")
      (some "admin")).sent = [] :=
  join_validation_rejected envW [] "Ada" "a@b.co" "admin"
    (Or.inr (Or.inr (by decide)))

theorem map_fst_filter_sends (env : Env) (es : List String) :
    ((es.map (fun x => (x, env.send x))).filter
      (fun p => p.2.isErr)).map Prod.fst
      = es.filter (fun x => (env.send x).isErr) := by
  induction es with
  | nil => rfl
  | cons a t ih =>
    cases h : (env.send a).isErr <;> simp [List.filter_cons, h, ih]

/-- C4: when every bulk send settles (no rejection) and a non-empty subset
resolves with an error, the handler reports 500 naming exactly the failed
recipients, while every recipient in the list was attempted — the
successful sends are not undone. -/
theorem bulk_failure_subset_named (env : Env) (s b : String)
    (es : List String) (hk : env.hasApiKey = true) (hs : s ≠ "")
    (hb : b ≠ "") (hes : es ≠ [])
    (hnothrown : ∀ x ∈ es, (env.send x).isThrown = false)
    (hfailed : es.filter (fun x => (env.send x).isErr) ≠ []) :
    (bulkHandler env (some s) (some b) (some es)).resp.status = 500 ∧
    (bulkHandler env (some s) (some b) (some es)).resp.message
      = some ("Failed to send to: " ++ String.intercalate ", "
          (es.filter (fun x => (env.send x).isErr))) ∧
    (bulkHandler env (some s) (some b) (some es)).attempted.map Prod.fst
      = es := by
  have hs' : (s == "") = false := by simp [hs]
  have hb' : (b == "") = false := by simp [hb]
  have hes' : es.isEmpty = false := by
    cases es with
    | nil => exact absurd rfl hes
    | cons a t => rfl
  have hthr : ((es.map (fun x => (x, env.send x))).any
      (fun p => p.2.isThrown)) = false := by
    refine List.any_eq_false.mpr ?_
    intro p hp
    obtain ⟨x, hx, rfl⟩ := List.mem_map.mp hp
    simp [hnothrown x hx]
  have hfail' : (((es.map (fun x => (x, env.send x))).filter
      (fun p => p.2.isErr)).map Prod.fst).isEmpty = false := by
    rw [map_fst_filter_sends]
    cases h : es.filter (fun x => (env.send x).isErr) with
    | nil => exact absurd h hfailed
    | cons a t => rfl
  have hfe : (((es.map (fun x => (x, env.send x))).filter
      (fun p => p.2.isErr)).map Prod.fst)
      = es.filter (fun x => (env.send x).isErr) := map_fst_filter_sends env es
  have hex : ∃ x ∈ es, (env.send x).isErr = true := by
    cases h : es.filter (fun x => (env.send x).isErr) with
    | nil => exact absurd h hfailed
    | cons a t =>
      have ha : a ∈ es.filter (fun x => (env.send x).isErr) := by simp [h]
      have hm := List.mem_filter.mp ha
      exact ⟨a, hm.1, hm.2⟩
  simp [bulkHandler, truthy, hk, hs', hb', emailsProvided, hes', hthr,
    hfail', hfe, hex, errResp, List.map_map, Function.comp]
  rw [show (Prod.fst ∘ fun e => (e, bulkHtml b)) = id from rfl, List.map_id]

/-- The environment for the C4 witness: the send to `b@x.co` resolves with
an error, the others succeed. -/
def envErrOne : Env :=
  ⟨true, fun _ => true,
    fun e => if e == "b@x.co" then .err "boom" else .ok,
    "2026-01-01T00:00:00.000Z", none, none, none, none⟩

/-- Witness for C4: three recipients, the middle one fails. -/
theorem bulk_failure_subset_named_witness :
    (bulkHandler envErrOne (some "subj") (some "hi")
      (some ["a@x.co", "b@x.co", "c@x.co"])).resp.status = 500 ∧
    (bulkHandler envErrOne (some "subj") (some "hi")
      (some ["a@x.co", "b@x.co", "c@x.co"])).resp.message
      = some ("Failed to send to: " ++ String.intercalate ", "
          (["a@x.co", "b@x.co", "c@x.co"].filter
            (fun x => (envErrOne.send x).isErr))) ∧
    (bulkHandler envErrOne (some "subj") (some "hi")
      (some ["a@x.co", "b@x.co", "c@x.co"])).attempted.map Prod.fst
      = ["a@x.co", "b@x.co", "c@x.co"] :=
  bulk_failure_subset_named envErrOne "subj" "hi"
    ["a@x.co", "b@x.co", "c@x.co"] rfl (by decide) (by decide) (by decide)
    (by decide) (by decide)

theorem filter_beq_of_filter_bne (l : List Subscriber) (e : String) :
    (l.filter (fun s => s.email != e)).filter (fun s => s.email == e)
      = [] := by
  induction l with
  | nil => rfl
  | cons a t ih =>
    cases h : a.email == e <;> simp [List.filter_cons, bne, h, ih]

theorem any_beq_of_filter_bne (l : List Subscriber) (e : String) :
    (l.filter (fun s => s.email != e)).any (fun s => s.email == e)
      = false := by
  refine List.any_eq_false.mpr ?_
  intro s hs
  have hmem := List.mem_filter.mp hs
  have hne : (s.email == e) = false := by
    have := hmem.2
    simpa [bne] using this
  simp [hne]

/-- C6: delete requires a non-empty email (400 on empty key, Store
untouched), answers 404 when no record exists for the key, and on success
removes the record: the resulting Store holds no record for that email,
listAll over it excludes the email, and a second delete of the same email
answers 404. -/
theorem delete_lifecycle (env : Env) (store : Store) (e e2 : String)
    (hf : env.deleteFault = none) (hl : env.listFault = none)
    (he : e ≠ "") (hex : store.any (fun s => s.email == e) = true)
    (he2 : e2 ≠ "") (habsent : store.any (fun s => s.email == e2) = false) :
    (deleteHandler env store "").1.status = 400 ∧
    (deleteHandler env store "").2 = store ∧
    (deleteHandler env store e2).1.status = 404 ∧
    (deleteHandler env store e2).2 = store ∧
    (deleteHandler env store e).1.status = 200 ∧
    countEmail (deleteHandler env store e).2 e = 0 ∧
    (listHandler env (deleteHandler env store e).2).subscribers
      = some (deleteHandler env store e).2 ∧
    (deleteHandler env (deleteHandler env store e).2 e).1.status = 404 := by
  have he' : (e == "") = false := by simp [he]
  have he2' : (e2 == "") = false := by simp [he2]
  refine ⟨by simp [deleteHandler, errResp], by simp [deleteHandler],
    ?_, ?_, ?_, ?_, ?_, ?_⟩
  · simp [deleteHandler, he2', hf, deleteSubscriber, habsent, errResp]
  · simp [deleteHandler, he2', hf, deleteSubscriber, habsent]
  · simp [deleteHandler, he', hf, deleteSubscriber, hex]
  · simp [deleteHandler, he', hf, deleteSubscriber, hex, countEmail,
      filter_beq_of_filter_bne]
  · simp [deleteHandler, he', hf, deleteSubscriber, hex, listHandler, hl]
  · simp [deleteHandler, he', hf, deleteSubscriber, hex,
      any_beq_of_filter_bne, errResp]

/-- Witness for C6: deleting the stored address, probing a missing one. -/
theorem delete_lifecycle_witness :
    (deleteHandler envW storeW "").1.status = 400 ∧
    (deleteHandler envW storeW "").2 = storeW ∧
    (deleteHandler envW storeW "c@d.co").1.status = 404 ∧
    (deleteHandler envW storeW "c@d.co").2 = storeW ∧
    (deleteHandler envW storeW "a@b.co").1.status = 200 ∧
    countEmail (deleteHandler envW storeW "a@b.co").2 "a@b.co" = 0 ∧
    (listHandler envW (deleteHandler envW storeW "a@b.co").2).subscribers
      = some (deleteHandler envW storeW "a@b.co").2 ∧
    (deleteHandler envW (deleteHandler envW storeW "a@b.co").2
      "a@b.co").1.status = 404 :=
  delete_lifecycle envW storeW "a@b.co" "c@d.co" rfl rfl (by decide)
    (by decide) (by decide) (by decide)

/-- C8: every attempted bulk dispatch carries as HTML exactly the body
with each newline replaced by `<br/>`, wrapped in the styled div; the
replacement touches nothing but newline characters, so user-supplied
markup in the body passes through verbatim. -/
theorem bulk_html_newline_replacement (env : Env) (s b : String)
    (es : List String) (hk : env.hasApiKey = true) (hs : s ≠ "")
    (hb : b ≠ "") (hes : es ≠ []) :
    (bulkHandler env (some s) (some b) (some es)).attempted
      = es.map (fun x =>
          (x, htmlDivOpen ++ replaceNewlines b ++ htmlDivClose)) ∧
    replaceNewlines "<b>Hello & <script>alert(1)</script></b>"
      = "<b>Hello & <script>alert(1)</script></b>" ∧
    replaceNewlines "line1\nline2" = "line1<br/>line2" := by
  refine ⟨?_, by decide, by decide⟩
  have hs' : (s == "") = false := by simp [hs]
  have hb' : (b == "") = false := by simp [hb]
  have hes' : es.isEmpty = false := by
    cases es with
    | nil => exact absurd rfl hes
    | cons a t => rfl
  simp only [bulkHandler, truthy, emailsProvided, hk, hs', hb', hes',
    Bool.not_false, Bool.not_true, Bool.or_self, Bool.or_false,
    Bool.false_or, if_false, Bool.false_eq_true, ite_false]
  repeat' split
  all_goals simp [bulkHtml]

/-- Witness for C8: a two-recipient batch with a newline in the body. -/
theorem bulk_html_newline_replacement_witness :
    (bulkHandler envW (some "subj") (some "x\ny")
      (some ["a@b.co", "c@d.co"])).attempted
      = ["a@b.co", "c@d.co"].map (fun x =>
          (x, htmlDivOpen ++ replaceNewlines "x\ny" ++ htmlDivClose)) ∧
    replaceNewlines "<b>Hello & <script>alert(1)</script></b>"
      = "<b>Hello & <script>alert(1)</script></b>" ∧
    replaceNewlines "line1\nline2" = "line1<br/>line2" :=
  bulk_html_newline_replacement envW "subj" "x\ny" ["a@b.co", "c@d.co"]
    rfl (by decide) (by decide) (by decide)

/-- C9: every handler is total and translates every internal fault into a
documented response: for all environments (including faulting Store
operations and failing sends) and all inputs, each handler answers with a
status from its documented set — nothing escapes unhandled. -/
theorem handlers_catch_all (env : Env) (store : Store)
    (name? email? role? : Option String) (em : String)
    (subject? body? : Option String) (emails? : Option (List String)) :
    (joinHandler env store name? email? role?).resp.status
      ∈ ([200, 400, 409, 500] : List Nat) ∧
    (countHandler env store).status = 200 ∧
    (listHandler env store).status ∈ ([200, 500] : List Nat) ∧
    (deleteHandler env store em).1.status
      ∈ ([200, 400, 404, 500] : List Nat) ∧
    (bulkHandler env subject? body? emails?).resp.status
      ∈ ([200, 400, 500] : List Nat) := by
  refine ⟨?_, ?_, ?_, ?_, ?_⟩
  · cases htr : (!truthy name? || !truthy email? || !truthy role?) with
    | true => simp [joinHandler, htr, errResp]
    | false =>
      cases hval : joinValidate env (name?.getD "") (email?.getD "")
          (role?.getD "") with
      | some m => simp [joinHandler, htr, hval, errResp]
      | none =>
        cases haf : env.addFault with
        | some m => simp [joinHandler, htr, hval, haf, errResp]
        | none =>
          cases hadd : (addSubscriber store
              ⟨name?.getD "", email?.getD "", role?.getD "", env.now⟩).2 with
          | false => simp [joinHandler, htr, hval, haf, hadd, errResp]
          | true =>
            cases hk : env.hasApiKey with
            | false => simp [joinHandler, htr, hval, haf, hadd, hk, errResp]
            | true =>
              cases hsend : env.send (email?.getD "") with
              | ok =>
                cases hcf : env.countFault with
                | some m =>
                  simp [joinHandler, htr, hval, haf, hadd, hk, hsend, hcf,
                    errResp]
                | none =>
                  simp [joinHandler, htr, hval, haf, hadd, hk, hsend, hcf,
                    errResp]
              | err m =>
                simp [joinHandler, htr, hval, haf, hadd, hk, hsend, errResp]
              | thrown m =>
                simp [joinHandler, htr, hval, haf, hadd, hk, hsend, errResp]
  · cases h : env.countFault <;> simp [countHandler, h]
  · cases h : env.listFault <;> simp [listHandler, h]
  · cases hem : (em == "") with
    | true => simp [deleteHandler, hem, errResp]
    | false =>
      cases hdf : env.deleteFault with
      | some m => simp [deleteHandler, hem, hdf, errResp]
      | none =>
        cases hdel : (deleteSubscriber store em).2 with
        | false => simp [deleteHandler, hem, hdf, hdel, errResp]
        | true => simp [deleteHandler, hem, hdf, hdel, errResp]
  · cases hk : env.hasApiKey with
    | false => simp [bulkHandler, hk, errResp]
    | true =>
      cases hg : (!truthy subject? || !truthy body?
          || !emailsProvided emails?) with
      | true => simp [bulkHandler, hk, hg, errResp]
      | false =>
        cases hthr : ((emails?.getD []).map
            (fun e => (e, env.send e))).any (fun p => p.2.isThrown) with
        | true => simp [bulkHandler, hk, hg, hthr, errResp]
        | false =>
          cases hfl : ((((emails?.getD []).map
              (fun e => (e, env.send e))).filter
              (fun p => p.2.isErr)).map (fun p => p.1)).isEmpty with
          | true => simp [bulkHandler, hk, hg, hthr, hfl, errResp]
          | false => simp [bulkHandler, hk, hg, hthr, hfl, errResp]

end Waitlist
